import Mathlib

/-!
Shallow embedding of the `build.rs` build script of the `zig-rs` repository.

The script is a single sequential routine (`fn main`) that
1. registers a cargo rerun directive for the `DO_IT` environment variable and
   returns immediately when `DO_IT` is absent;
2. when neither `DOCS_RS` is set nor the `zig-bootstrap` directory exists,
   downloads `https://github.com/ziglang/zig-bootstrap/archive/refs/tags/<maj>.<min>.<pat>.zip`,
   fails on an HTTP client/server error via `error_for_status`, writes the body
   to `zig-bootstrap.zip`, extracts it (stripping the common root directory)
   into `zig-bootstrap`, and removes `zig-bootstrap.zip`;
3. when `DOCS_RS` is set, writes an empty `zig`/`zig.exe` file and creates a
   `lib` directory inside the cargo output directory;
4. otherwise maps the build target triple through
   `zig_target_mcpu_for_build_target`, spawns `./build` / `./build.bat` in the
   `zig-bootstrap` directory with the mapped arguments, and on success renames
   the produced binary and `lib` directory into the cargo output directory.

External effects (filesystem, network, subprocess) are modelled by an oracle
`World` fixing the outcome of each fallible operation, and the run records an
`Event` trace of every effectful operation it attempts, together with the final
local filesystem contents (tracked as the set of local paths that exist).
-/

namespace ZigRs

/-- Standard-stream configuration handed to the child process, mirroring the
`Stdio` values `build.rs` can construct (`Stdio::inherit` is the default the
code never overrides with; `Stdio::null()`; a dup of this process's stdout; a
dup of this process's stderr obtained from `io::stderr()`). -/
inductive StdioSpec where
  | inherit
  | null
  | parentStdout
  | parentStderr
deriving DecidableEq, Repr

/-- The configuration of the spawned `std::process::Command`: program, the
positional arguments added with `.arg`, the working directory set with
`.current_dir`, and the three standard-stream settings. -/
structure Cmd where
  program : String
  args : List String
  cwd : Option String
  stdin : StdioSpec
  stdout : StdioSpec
  stderr : StdioSpec
deriving DecidableEq, Repr

/-- One effectful operation attempted by the build script, in program order.
An event records the attempt; whether the operation succeeds is decided by the
`World` oracle. -/
inductive Event where
  | rerunIfEnvChanged (name : String)
  | httpGet (url : String)
  | createFile (path : String)
  | copyBodyToFile (path : String)
  | openFile (path : String)
  | extractZip (dest : String)
  | removeFile (path : String)
  | writeFile (path : String) (contents : String)
  | createDirAll (path : String)
  | spawnWait (c : Cmd)
  | rename (src : String) (dst : String)
deriving DecidableEq, Repr

/-- The environment-provided build configuration read by `build.rs`:
presence of `DO_IT`, presence of `DOCS_RS` (`docs_rs()`), the target triple
(`build::target()`), the compile-time host flag `cfg!(windows)`, the
target-configuration flag `build::cargo_cfg_windows()`, the cargo output
directory (`build::out_dir()`), and the crate version triple. -/
structure Env where
  doIt : Bool
  docsRs : Bool
  target : String
  hostWindows : Bool
  cargoCfgWindows : Bool
  outDir : String
  major : Nat
  minor : Nat
  patch : Nat
deriving DecidableEq, Repr

/-- Oracle fixing the initial local filesystem (the set of paths that exist in
the script's working directory) and the outcome of every fallible external
operation the script may attempt, in program order. `status` is the final HTTP
status of the GET when the transport succeeded; `waitResult` is `none` for an
I/O error from `Command::status` and `some code` for an exit with that code. -/
structure World where
  fs : List String
  existsCheckOk : Bool
  fetchOk : Bool
  status : Nat
  createArchiveOk : Bool
  copyOk : Bool
  openArchiveOk : Bool
  zipOpenOk : Bool
  extractOk : Bool
  removeOk : Bool
  writeOk : Bool
  createDirOk : Bool
  waitResult : Option Nat
  renameBinOk : Bool
  renameLibOk : Bool
deriving DecidableEq, Repr

/-- Result of one run of the script: the `Result` value returned by `main`,
the trace of attempted effects, and the final local filesystem. -/
structure RunResult where
  result : Except String Unit
  events : List Event
  fs : List String
deriving Repr

/-- Set-semantics insertion into the path list (creating an existing path
truncates it; the path still exists exactly once). -/
def fsInsert (p : String) (fs : List String) : List String :=
  if fs.contains p then fs else p :: fs

/-- Set-semantics removal of a path from the path list. -/
def fsRemove (p : String) (fs : List String) : List String :=
  fs.filter (fun q => q ≠ p)

/-- The download URL built by `main` from the crate version triple. -/
def downloadUrl (major minor patch : Nat) : String :=
  "https://github.com/ziglang/zig-bootstrap/archive/refs/tags/" ++
    toString major ++ "." ++ toString minor ++ "." ++ toString patch ++ ".zip"

/-- `reqwest::Response::error_for_status` fails exactly on HTTP client errors
(400–499) and server errors (500–599). -/
def errorForStatusFails (status : Nat) : Bool :=
  400 ≤ status && status ≤ 599

/-- `Path::join` as used by the script (all joined components are relative). -/
def pathJoin (a b : String) : String := a ++ "/" ++ b

/-- The binary artifact name chosen in `main`:
`if build::cargo_cfg_windows() { "zig.exe" } else { "zig" }`. -/
def binaryName (cargoCfgWindows : Bool) : String :=
  if cargoCfgWindows then "zig.exe" else "zig"

/-- The entrypoint program chosen in `main`:
`if cfg!(windows) { "./build.bat" } else { "./build" }`. -/
def scriptName (hostWindows : Bool) : String :=
  if hostWindows then "./build.bat" else "./build"

/-- `zig_target_mcpu_for_build_target` from `build.rs`, with the target triple
(read there from the build environment) passed explicitly: the fixed match
table over the triple, `None` for every triple not listed. -/
def zig_target_mcpu_for_build_target (target : String) : Option (String × String) :=
  if target = "aarch64-apple-darwin" then some ("aarch64-macos-none", "baseline")
  else if target = "x86_64-unknown-linux-gnu" then some ("x86_64-linux-gnu", "baseline")
  else if target = "x86_64-pc-windows-gnu" then some ("x86_64-windows-gnu", "baseline")
  else none

/-- The `{:?}` debug rendering of the spawned `Command` as used in the failure
message (Unix `std`): a `cd <dir> &&` prefix for the configured working
directory, then the program and each argument quoted. -/
def commandDebug (c : Cmd) : String :=
  (match c.cwd with
   | some d => "cd \"" ++ d ++ "\" && "
   | none => "") ++
  String.intercalate " " ((c.program :: c.args).map (fun a => "\"" ++ a ++ "\""))

/-- The `Display` rendering of a normal `ExitStatus` with the given code. -/
def exitStatusDisplay (code : Nat) : String :=
  "exit status: " ++ toString code

/-- The `Command` configured by `main` before `cmd.status()` is called:
program chosen by the compile-time host-Windows condition, the two mapped
names as positional arguments, working directory `zig-bootstrap`, standard
input null, standard output and standard error both redirected to this
process's standard error. -/
def buildCmd (env : Env) (zigTarget zigMcpu : String) : Cmd :=
  { program := scriptName env.hostWindows
    args := [zigTarget, zigMcpu]
    cwd := some "zig-bootstrap"
    stdin := .null
    stdout := .parentStderr
    stderr := .parentStderr }

/-- The source-acquisition stage of `main` (`build.rs` lines 57–78): skipped
entirely when `docs_rs()` holds or the `zig-bootstrap` directory exists;
otherwise fetch, status check, archive create, body copy, archive open, zip
open, extraction, archive removal, each propagating failure with `?`. Returns
the stage result, its event trace, and the updated filesystem. -/
def acquire (env : Env) (w : World) : Except String Unit × List Event × List String :=
  if env.docsRs then (.ok (), [], w.fs)
  else if !w.existsCheckOk then (.error "io error: fs::exists", [], w.fs)
  else if w.fs.contains "zig-bootstrap" then (.ok (), [], w.fs)
  else
    let ev1 := [Event.httpGet (downloadUrl env.major env.minor env.patch)]
    if !w.fetchOk then (.error "reqwest transport error", ev1, w.fs)
    else if errorForStatusFails w.status then
      (.error ("HTTP status error: " ++ toString w.status), ev1, w.fs)
    else
      let ev2 := ev1 ++ [Event.createFile "zig-bootstrap.zip"]
      if !w.createArchiveOk then (.error "io error: File::create", ev2, w.fs)
      else
        let fs1 := fsInsert "zig-bootstrap.zip" w.fs
        let ev3 := ev2 ++ [Event.copyBodyToFile "zig-bootstrap.zip"]
        if !w.copyOk then (.error "reqwest error: copy_to", ev3, fs1)
        else
          let ev4 := ev3 ++ [Event.openFile "zig-bootstrap.zip"]
          if !w.openArchiveOk then (.error "io error: File::open", ev4, fs1)
          else if !w.zipOpenOk then (.error "zip error: ZipArchive::new", ev4, fs1)
          else
            let ev5 := ev4 ++ [Event.extractZip "zig-bootstrap"]
            if !w.extractOk then
              (.error "zip error: extract_unwrapped_root_dir", ev5, fs1)
            else
              let fs2 := fsInsert "zig-bootstrap" fs1
              let ev6 := ev5 ++ [Event.removeFile "zig-bootstrap.zip"]
              if !w.removeOk then (.error "io error: remove_file", ev6, fs2)
              else (.ok (), ev6, fsRemove "zig-bootstrap.zip" fs2)

/-- The whole of `fn main` from `build.rs`: rerun directive, the `DO_IT` gate,
the acquisition stage, then either the `DOCS_RS` placeholder branch (empty
binary file and `lib` directory in the output directory) or the build branch
(target mapping, subprocess, two renames), every failure propagating. -/
def buildScriptMain (env : Env) (w : World) : RunResult :=
  let ev0 := [Event.rerunIfEnvChanged "DO_IT"]
  if !env.doIt then ⟨.ok (), ev0, w.fs⟩
  else
    match acquire env w with
    | (.error e, evs, fs) => ⟨.error e, ev0 ++ evs, fs⟩
    | (.ok _, evs, fs) =>
      if env.docsRs then
        let binPath := pathJoin env.outDir (binaryName env.cargoCfgWindows)
        let ev1 := ev0 ++ evs ++ [Event.writeFile binPath ""]
        if !w.writeOk then ⟨.error "io error: write", ev1, fs⟩
        else
          let ev2 := ev1 ++ [Event.createDirAll (pathJoin env.outDir "lib")]
          if !w.createDirOk then ⟨.error "io error: create_dir_all", ev2, fs⟩
          else ⟨.ok (), ev2, fs⟩
      else
        match zig_target_mcpu_for_build_target env.target with
        | none => ⟨.error ("unmapped target: " ++ env.target), ev0 ++ evs, fs⟩
        | some (zigTarget, zigMcpu) =>
          let c := buildCmd env zigTarget zigMcpu
          let ev1 := ev0 ++ evs ++ [Event.spawnWait c]
          match w.waitResult with
          | none => ⟨.error "io error: Command::status", ev1, fs⟩
          | some code =>
            if code ≠ 0 then
              ⟨.error ("zig-bootstrap " ++ commandDebug c ++ " failed: " ++
                  exitStatusDisplay code), ev1, fs⟩
            else
              let zigOutDir :=
                pathJoin (pathJoin "zig-bootstrap" "out")
                  ("zig-" ++ zigTarget ++ "-" ++ zigMcpu)
              let bin := binaryName env.cargoCfgWindows
              let ev2 := ev1 ++
                [Event.rename (pathJoin zigOutDir bin) (pathJoin env.outDir bin)]
              if !w.renameBinOk then ⟨.error "io error: rename binary", ev2, fs⟩
              else
                let ev3 := ev2 ++
                  [Event.rename (pathJoin zigOutDir "lib") (pathJoin env.outDir "lib")]
                if !w.renameLibOk then ⟨.error "io error: rename lib", ev3, fs⟩
                else ⟨.ok (), ev3, fs⟩

end ZigRs

namespace ZigRs

/-- Claim C1: the target mapper is a pure total function of the triple string:
the three listed triples map exactly to their table pairs, and every other
triple yields `none`, never a default pair. -/
theorem mapper_table_exact :
    zig_target_mcpu_for_build_target "aarch64-apple-darwin" =
      some ("aarch64-macos-none", "baseline") ∧
    zig_target_mcpu_for_build_target "x86_64-unknown-linux-gnu" =
      some ("x86_64-linux-gnu", "baseline") ∧
    zig_target_mcpu_for_build_target "x86_64-pc-windows-gnu" =
      some ("x86_64-windows-gnu", "baseline") ∧
    ∀ t : String,
      t ∉ ["aarch64-apple-darwin", "x86_64-unknown-linux-gnu", "x86_64-pc-windows-gnu"] →
      zig_target_mcpu_for_build_target t = none := by
  refine ⟨by decide, by decide, by decide, ?_⟩
  intro t ht
  simp only [List.mem_cons, List.not_mem_nil, or_false, not_or] at ht
  obtain ⟨h1, h2, h3⟩ := ht
  simp [zig_target_mcpu_for_build_target, h1, h2, h3]

/-- Witness for C1: the unlisted triple from the spec scenario maps to `none`. -/
theorem mapper_table_exact_witness :
    zig_target_mcpu_for_build_target "riscv64gc-unknown-linux-gnu" = none :=
  mapper_table_exact.2.2.2 "riscv64gc-unknown-linux-gnu" (by decide)

/-- `true` exactly for the effect events produced by the acquisition stage:
the network fetch, the archive-file operations, and the extraction. -/
def isAcquisitionEffect : Event → Bool
  | .httpGet _ => true
  | .createFile _ => true
  | .copyBodyToFile _ => true
  | .openFile _ => true
  | .extractZip _ => true
  | .removeFile _ => true
  | _ => false

theorem contains_fsInsert_self (p : String) (fs : List String) :
    (fsInsert p fs).contains p = true := by
  by_cases h : fs.contains p = true <;> simp_all [fsInsert, List.elem_iff]

theorem contains_fsRemove_self (p : String) (fs : List String) :
    (fsRemove p fs).contains p = false := by
  simp [fsRemove, List.elem_iff]

theorem contains_fsRemove_ne (p q : String) (fs : List String) (h : q ≠ p) :
    (fsRemove p fs).contains q = fs.contains q := by
  by_cases hc : fs.contains q = true <;>
    simp_all [fsRemove, List.elem_iff, List.mem_filter]

/-- When the `zig-bootstrap` directory already exists, the acquisition stage
either skips (documentation mode or the existence check succeeding) or fails
in the existence check itself; in every case it records no event and leaves
the filesystem unchanged. -/
theorem acquire_of_contains (env : Env) (w : World)
    (h : w.fs.contains "zig-bootstrap" = true) :
    acquire env w = (.ok (), [], w.fs) ∨
    acquire env w = (.error "io error: fs::exists", [], w.fs) := by
  by_cases hd : env.docsRs = true <;> by_cases he : w.existsCheckOk = true <;>
    simp_all [acquire]

/-- With the gate open, the final filesystem of a run is exactly the
filesystem left by the acquisition stage: the later branches only write inside
the output directory or rename, which the local-path model does not track. -/
theorem main_fs_eq_acquire (env : Env) (w : World) (h : env.doIt = true) :
    (buildScriptMain env w).fs = (acquire env w).2.2 := by
  rcases hacq : acquire env w with ⟨e | a, evs, fs⟩ <;>
    simp [buildScriptMain, h, hacq] <;> (repeat' split) <;> (try simp)

/-- With the gate open, a successful run implies the acquisition stage
succeeded. -/
theorem main_ok_acquire_ok (env : Env) (w : World) (h : env.doIt = true)
    (hok : (buildScriptMain env w).result = .ok ()) :
    (acquire env w).1 = .ok () := by
  rcases hacq : acquire env w with ⟨e | a, evs, fs⟩ <;>
    simp_all [buildScriptMain, h, hacq]

/-- With the gate open, an acquisition-effect event occurs in the run trace
exactly when the acquisition stage recorded it: no other stage produces such
events. -/
theorem main_acquisition_event (env : Env) (w : World) (h : env.doIt = true)
    (e : Event) (he : isAcquisitionEffect e = true) :
    (e ∈ (buildScriptMain env w).events ↔ e ∈ (acquire env w).2.1) := by
  rcases hacq : acquire env w with ⟨x | a, evs, fs⟩ <;>
    cases e <;> simp_all [buildScriptMain, isAcquisitionEffect, h, hacq] <;>
    repeat' split <;> try simp

/-- The acquisition stage has exactly three outcome shapes: an error, the
skip (no event, filesystem unchanged), or the full fetch path succeeding with
its six events in order, the source tree inserted and the archive removed. -/
theorem acquire_shape (env : Env) (w : World) :
    (∃ e, (acquire env w).1 = .error e) ∨
    acquire env w = (.ok (), [], w.fs) ∨
    acquire env w = (.ok (),
      [Event.httpGet (downloadUrl env.major env.minor env.patch),
       Event.createFile "zig-bootstrap.zip",
       Event.copyBodyToFile "zig-bootstrap.zip",
       Event.openFile "zig-bootstrap.zip",
       Event.extractZip "zig-bootstrap",
       Event.removeFile "zig-bootstrap.zip"],
      fsRemove "zig-bootstrap.zip"
        (fsInsert "zig-bootstrap" (fsInsert "zig-bootstrap.zip" w.fs))) := by
  unfold acquire
  by_cases h1 : env.docsRs = true
  · simp [h1]
  simp only [if_neg h1]
  by_cases h2 : (!w.existsCheckOk) = true
  · simp [h2]
  simp only [if_neg h2]
  by_cases h3 : w.fs.contains "zig-bootstrap" = true
  · simp [List.elem_iff.mp h3]
  simp only [if_neg h3]
  by_cases h4 : (!w.fetchOk) = true
  · simp [h4]
  simp only [if_neg h4]
  by_cases h5 : errorForStatusFails w.status = true
  · simp [h5]
  simp only [if_neg h5]
  by_cases h6 : (!w.createArchiveOk) = true
  · simp [h6]
  simp only [if_neg h6]
  by_cases h7 : (!w.copyOk) = true
  · simp [h7]
  simp only [if_neg h7]
  by_cases h8 : (!w.openArchiveOk) = true
  · simp [h8]
  simp only [if_neg h8]
  by_cases h9 : (!w.zipOpenOk) = true
  · simp [h9]
  simp only [if_neg h9]
  by_cases h10 : (!w.extractOk) = true
  · simp [h10]
  simp only [if_neg h10]
  by_cases h11 : (!w.removeOk) = true
  · simp [h11]
  simp only [if_neg h11]
  simp

/-- A run environment with the `DO_IT` gate closed. -/
def envGateClosed : Env :=
  { doIt := false, docsRs := false, target := "x86_64-unknown-linux-gnu"
    hostWindows := false, cargoCfgWindows := false, outDir := "target/out"
    major := 0, minor := 14, patch := 1 }

/-- A run environment in documentation mode with the gate open. -/
def envDocs : Env :=
  { doIt := true, docsRs := true, target := "x86_64-unknown-linux-gnu"
    hostWindows := false, cargoCfgWindows := false, outDir := "target/out"
    major := 0, minor := 14, patch := 1 }

/-- A gate-open non-documentation run environment for a mapped Linux target. -/
def envLinux : Env :=
  { doIt := true, docsRs := false, target := "x86_64-unknown-linux-gnu"
    hostWindows := false, cargoCfgWindows := false, outDir := "target/out"
    major := 0, minor := 14, patch := 1 }

/-- A world where every external operation succeeds and the source tree is
already present on disk. -/
def worldAllOk : World :=
  { fs := ["zig-bootstrap"], existsCheckOk := true, fetchOk := true, status := 200
    createArchiveOk := true, copyOk := true, openArchiveOk := true, zipOpenOk := true
    extractOk := true, removeOk := true, writeOk := true, createDirOk := true
    waitResult := some 0, renameBinOk := true, renameLibOk := true }

/-- A hostile world: empty filesystem, no network, every acquisition and build
operation fails; only the documentation-mode writes succeed. -/
def worldBare : World :=
  { fs := [], existsCheckOk := false, fetchOk := false, status := 404
    createArchiveOk := false, copyOk := false, openArchiveOk := false, zipOpenOk := false
    extractOk := false, removeOk := false, writeOk := true, createDirOk := true
    waitResult := none, renameBinOk := false, renameLibOk := false }

/-- Claim C7: with `DO_IT` absent the routine returns success immediately, and
its only recorded action is the cargo rerun directive — no filesystem write, no
network access, the filesystem unchanged — for every combination of the other
inputs. -/
theorem gate_closed_noop (env : Env) (w : World) (h : env.doIt = false) :
    (buildScriptMain env w).result = .ok () ∧
    (buildScriptMain env w).events = [Event.rerunIfEnvChanged "DO_IT"] ∧
    (buildScriptMain env w).fs = w.fs := by
  simp [buildScriptMain, h]

/-- Witness for C7 at a concrete gate-closed environment and concrete world. -/
theorem gate_closed_noop_witness :
    (buildScriptMain envGateClosed worldAllOk).result = .ok () ∧
    (buildScriptMain envGateClosed worldAllOk).events = [Event.rerunIfEnvChanged "DO_IT"] ∧
    (buildScriptMain envGateClosed worldAllOk).fs = worldAllOk.fs :=
  gate_closed_noop envGateClosed worldAllOk rfl

/-- Claim C3: with the gate open and `DOCS_RS` set (so that the routine runs at
all and takes the documentation branch), the run succeeds, writes an empty
binary file — `zig.exe` when the target-Windows flag is set, `zig` otherwise —
directly in the output directory, creates the `lib` directory there, and
performs no network fetch, no subprocess invocation and no artifact rename;
the statement holds for every world, in particular ones with no source tree on
disk and all network operations failing. -/
theorem docs_mode_placeholders (env : Env) (w : World)
    (hdo : env.doIt = true) (hdocs : env.docsRs = true)
    (hw : w.writeOk = true) (hc : w.createDirOk = true) :
    (buildScriptMain env w).result = .ok () ∧
    Event.writeFile (pathJoin env.outDir (binaryName env.cargoCfgWindows)) "" ∈
      (buildScriptMain env w).events ∧
    Event.createDirAll (pathJoin env.outDir "lib") ∈ (buildScriptMain env w).events ∧
    binaryName true = "zig.exe" ∧ binaryName false = "zig" ∧
    (∀ u, Event.httpGet u ∉ (buildScriptMain env w).events) ∧
    (∀ c, Event.spawnWait c ∉ (buildScriptMain env w).events) ∧
    (∀ a b, Event.rename a b ∉ (buildScriptMain env w).events) := by
  simp [buildScriptMain, acquire, hdo, hdocs, hw, hc, binaryName]

/-- Witness for C3: the documentation-mode run on the hostile world (no source
tree, no network) still produces the placeholder artifacts. -/
theorem docs_mode_placeholders_witness :
    (buildScriptMain envDocs worldBare).result = .ok () ∧
    Event.writeFile (pathJoin envDocs.outDir (binaryName envDocs.cargoCfgWindows)) "" ∈
      (buildScriptMain envDocs worldBare).events ∧
    Event.createDirAll (pathJoin envDocs.outDir "lib") ∈
      (buildScriptMain envDocs worldBare).events ∧
    binaryName true = "zig.exe" ∧ binaryName false = "zig" ∧
    (∀ u, Event.httpGet u ∉ (buildScriptMain envDocs worldBare).events) ∧
    (∀ c, Event.spawnWait c ∉ (buildScriptMain envDocs worldBare).events) ∧
    (∀ a b, Event.rename a b ∉ (buildScriptMain envDocs worldBare).events) :=
  docs_mode_placeholders envDocs worldBare rfl rfl rfl rfl

/-- Claim C6: the source acquirer is idempotent. First conjunct: whenever the
`zig-bootstrap` directory already exists, the run performs no acquisition
effect at all — no fetch, no archive create/write/open/remove, no extraction —
for every environment and world. Second conjunct: a successful run that did
extract leaves the `zig-bootstrap` directory on disk, so a second invocation
falls under the first conjunct. There is no version or content check: the
existence test is the only guard. -/
theorem acquirer_idempotent :
    (∀ (env : Env) (w : World), w.fs.contains "zig-bootstrap" = true →
      (buildScriptMain env w).events.all (fun e => !isAcquisitionEffect e) = true) ∧
    (∀ (env : Env) (w : World), (buildScriptMain env w).result = .ok () →
      Event.extractZip "zig-bootstrap" ∈ (buildScriptMain env w).events →
      (buildScriptMain env w).fs.contains "zig-bootstrap" = true) := by
  constructor
  · intro env w h
    by_cases hdo : env.doIt = true
    · rcases acquire_of_contains env w h with hacq | hacq <;>
        simp [buildScriptMain, hdo, hacq] <;> (repeat' split) <;>
        (first | rfl | simp [isAcquisitionEffect])
    · simp [buildScriptMain, hdo, isAcquisitionEffect]
  · intro env w hok hev
    by_cases hdo : env.doIt = true
    · rw [main_fs_eq_acquire env w hdo]
      have hev' :=
        (main_acquisition_event env w hdo (Event.extractZip "zig-bootstrap") rfl).mp hev
      have hok' := main_ok_acquire_ok env w hdo hok
      rcases acquire_shape env w with ⟨e, he⟩ | hacq | hacq
      · simp [he] at hok'
      · simp [hacq] at hev'
      · rw [hacq]
        have hne : ("zig-bootstrap" : String) ≠ "zig-bootstrap.zip" := by simp
        rw [contains_fsRemove_ne _ _ _ hne, contains_fsInsert_self]
    · simp_all [buildScriptMain, hdo]

/-- Witness for C6: with the source tree already present, a full successful
run records no acquisition effect, and that run is itself successful with the
directory still present. -/
theorem acquirer_idempotent_witness :
    worldAllOk.fs.contains "zig-bootstrap" = true ∧
    (buildScriptMain envLinux worldAllOk).events.all
      (fun e => !isAcquisitionEffect e) = true ∧
    (buildScriptMain envLinux worldAllOk).fs.contains "zig-bootstrap" = true :=
  ⟨by decide, acquirer_idempotent.1 envLinux worldAllOk rfl, by decide⟩

/-- A world where every external operation succeeds and the filesystem starts
empty, so a run actually fetches the source archive. -/
def worldFetch : World := { worldAllOk with fs := [] }

/-- Like `worldFetch` but the zip extraction fails. -/
def worldExtractFails : World := { worldAllOk with fs := [], extractOk := false }

/-- Like `worldFetch` but the archive fetch comes back with HTTP status 404. -/
def worldFetch404 : World := { worldAllOk with fs := [], status := 404 }

/-- Counterexample to claim C2 as stated: in a run whose extraction fails, the
error propagates but the temporary archive is *not* deleted — the run ends in
an error with `zig-bootstrap.zip` created, never removed, and still on disk. -/
theorem archive_left_on_extraction_failure :
    (buildScriptMain envLinux worldExtractFails).result =
      .error "zip error: extract_unwrapped_root_dir" ∧
    Event.createFile "zig-bootstrap.zip" ∈
      (buildScriptMain envLinux worldExtractFails).events ∧
    Event.removeFile "zig-bootstrap.zip" ∉
      (buildScriptMain envLinux worldExtractFails).events ∧
    (buildScriptMain envLinux worldExtractFails).fs.contains "zig-bootstrap.zip" = true := by
  refine ⟨rfl, by decide, by decide, by decide⟩

/-- Claim C2 (amended): in every run that creates the temporary archive and
returns success, the archive was removed and is no longer on disk; the removal
step only happens after a successful extraction, so when extraction fails the
error propagates with the archive left behind (see the counterexample). -/
theorem archive_removed_on_success (env : Env) (w : World)
    (hok : (buildScriptMain env w).result = .ok ())
    (hcr : Event.createFile "zig-bootstrap.zip" ∈ (buildScriptMain env w).events) :
    Event.removeFile "zig-bootstrap.zip" ∈ (buildScriptMain env w).events ∧
    (buildScriptMain env w).fs.contains "zig-bootstrap.zip" = false := by
  by_cases hdo : env.doIt = true
  · have hcr' :=
      (main_acquisition_event env w hdo (Event.createFile "zig-bootstrap.zip") rfl).mp hcr
    have hok' := main_ok_acquire_ok env w hdo hok
    rcases acquire_shape env w with ⟨e, he⟩ | hacq | hacq
    · rw [he] at hok'; exact absurd hok' (by simp)
    · rw [hacq] at hcr'; simp at hcr'
    · refine ⟨(main_acquisition_event env w hdo
        (Event.removeFile "zig-bootstrap.zip") rfl).mpr ?_, ?_⟩
      · rw [hacq]; simp
      · rw [main_fs_eq_acquire env w hdo, hacq]
        exact contains_fsRemove_self _ _
  · simp [buildScriptMain, hdo] at hcr

/-- Witness for the amended C2: a concrete fully successful fetching run
creates the archive, removes it, and leaves no archive on disk. -/
theorem archive_removed_on_success_witness :
    (buildScriptMain envLinux worldFetch).result = .ok () ∧
    Event.createFile "zig-bootstrap.zip" ∈ (buildScriptMain envLinux worldFetch).events ∧
    Event.removeFile "zig-bootstrap.zip" ∈ (buildScriptMain envLinux worldFetch).events ∧
    (buildScriptMain envLinux worldFetch).fs.contains "zig-bootstrap.zip" = false :=
  ⟨rfl, by decide,
    (archive_removed_on_success envLinux worldFetch rfl (by decide)).1,
    (archive_removed_on_success envLinux worldFetch rfl (by decide)).2⟩

/-- Claim C5: when the gate is open, no source tree is present, the transport
succeeds but reports an HTTP client/server error (the statuses on which
`error_for_status` fails, e.g. 404), the run fails with an error, no archive
file is ever created, and the filesystem is left exactly as it was. -/
theorem fetch_error_before_archive (env : Env) (w : World)
    (hdo : env.doIt = true) (hdocs : env.docsRs = false)
    (hex : w.existsCheckOk = true) (hc : w.fs.contains "zig-bootstrap" = false)
    (hf : w.fetchOk = true) (hs : errorForStatusFails w.status = true) :
    (buildScriptMain env w).result = .error ("HTTP status error: " ++ toString w.status) ∧
    Event.httpGet (downloadUrl env.major env.minor env.patch) ∈
      (buildScriptMain env w).events ∧
    (∀ p, Event.createFile p ∉ (buildScriptMain env w).events) ∧
    (buildScriptMain env w).fs = w.fs := by
  have hc' : "zig-bootstrap" ∉ w.fs := by simp_all
  have hacq : acquire env w =
      (.error ("HTTP status error: " ++ toString w.status),
        [Event.httpGet (downloadUrl env.major env.minor env.patch)], w.fs) := by
    simp [acquire, hdocs, hex, hc', hf, hs]
  simp [buildScriptMain, hdo, hacq]

/-- Witness for C5 at a concrete environment and a world answering HTTP 404. -/
theorem fetch_error_before_archive_witness :
    envLinux.doIt = true ∧ envLinux.docsRs = false ∧
    worldFetch404.existsCheckOk = true ∧
    worldFetch404.fs.contains "zig-bootstrap" = false ∧
    worldFetch404.fetchOk = true ∧ errorForStatusFails worldFetch404.status = true ∧
    ((buildScriptMain envLinux worldFetch404).result =
      .error ("HTTP status error: " ++ toString worldFetch404.status) ∧
    Event.httpGet (downloadUrl envLinux.major envLinux.minor envLinux.patch) ∈
      (buildScriptMain envLinux worldFetch404).events ∧
    (∀ p, Event.createFile p ∉ (buildScriptMain envLinux worldFetch404).events) ∧
    (buildScriptMain envLinux worldFetch404).fs = worldFetch404.fs) :=
  ⟨rfl, rfl, rfl, by decide, rfl, by decide,
    fetch_error_before_archive envLinux worldFetch404 rfl rfl rfl (by decide) rfl (by decide)⟩

/-- `true` exactly on artifact-relocation (rename) events. -/
def isRenameEvent : Event → Bool
  | .rename _ _ => true
  | _ => false

theorem string_append_left_cancel {a b c : String} (h : a ++ b = a ++ c) : b = c := by
  have hd := congrArg String.data h
  simp only [String.data_append] at hd
  exact String.ext (List.append_cancel_left hd)

/-- When `docs_rs()` is false, the existence check succeeds and the source
tree is present, the acquisition stage is a pure skip. -/
theorem acquire_skip (env : Env) (w : World) (hdocs : env.docsRs = false)
    (hex : w.existsCheckOk = true) (hc : w.fs.contains "zig-bootstrap" = true) :
    acquire env w = (.ok (), [], w.fs) := by
  simp [acquire, hdocs, hex, List.elem_iff.mp hc]

/-- Claim C4: if the build subprocess exits with a non-zero status, the run
fails with the error message built from the debug rendering of the invoked
command and the exit-status display — so the message contains both the command
and the status as substrings — and no rename event is ever recorded. -/
theorem subprocess_failure_fatal (env : Env) (w : World) (zt zm : String) (code : Nat)
    (hdo : env.doIt = true) (hdocs : env.docsRs = false)
    (hex : w.existsCheckOk = true) (hc : w.fs.contains "zig-bootstrap" = true)
    (hmap : zig_target_mcpu_for_build_target env.target = some (zt, zm))
    (hw : w.waitResult = some code) (hcode : code ≠ 0) :
    (buildScriptMain env w).result =
      .error ("zig-bootstrap " ++ commandDebug (buildCmd env zt zm) ++ " failed: " ++
        exitStatusDisplay code) ∧
    (∃ pre suf, "zig-bootstrap " ++ commandDebug (buildCmd env zt zm) ++ " failed: " ++
        exitStatusDisplay code = pre ++ commandDebug (buildCmd env zt zm) ++ suf) ∧
    (∃ pre suf, "zig-bootstrap " ++ commandDebug (buildCmd env zt zm) ++ " failed: " ++
        exitStatusDisplay code = pre ++ exitStatusDisplay code ++ suf) ∧
    (∀ a b, Event.rename a b ∉ (buildScriptMain env w).events) := by
  have hacq := acquire_skip env w hdocs hex hc
  have hrun : buildScriptMain env w =
      ⟨.error ("zig-bootstrap " ++ commandDebug (buildCmd env zt zm) ++ " failed: " ++
          exitStatusDisplay code),
        [Event.rerunIfEnvChanged "DO_IT", Event.spawnWait (buildCmd env zt zm)], w.fs⟩ := by
    simp [buildScriptMain, hdo, hdocs, hacq, hmap, hw, hcode]
  refine ⟨by rw [hrun],
    ⟨"zig-bootstrap ", " failed: " ++ exitStatusDisplay code, by
      rw [String.append_assoc, String.append_assoc]⟩,
    ⟨"zig-bootstrap " ++ commandDebug (buildCmd env zt zm) ++ " failed: ", "", by
      rw [String.append_empty]⟩,
    by rw [hrun]; simp⟩

/-- A world like `worldAllOk` (source tree present) whose build subprocess
exits with status 1. -/
def worldSubprocFails : World := { worldAllOk with waitResult := some 1 }

/-- Witness for C4: on the concrete Linux configuration with exit status 1,
the run fails with the message naming the command and the status, and no
rename is attempted. -/
theorem subprocess_failure_fatal_witness :
    worldSubprocFails.waitResult = some 1 ∧
    ((buildScriptMain envLinux worldSubprocFails).result =
      .error ("zig-bootstrap " ++
        commandDebug (buildCmd envLinux "x86_64-linux-gnu" "baseline") ++ " failed: " ++
        exitStatusDisplay 1) ∧
    (∃ pre suf, "zig-bootstrap " ++
        commandDebug (buildCmd envLinux "x86_64-linux-gnu" "baseline") ++ " failed: " ++
        exitStatusDisplay 1 =
          pre ++ commandDebug (buildCmd envLinux "x86_64-linux-gnu" "baseline") ++ suf) ∧
    (∃ pre suf, "zig-bootstrap " ++
        commandDebug (buildCmd envLinux "x86_64-linux-gnu" "baseline") ++ " failed: " ++
        exitStatusDisplay 1 = pre ++ exitStatusDisplay 1 ++ suf) ∧
    (∀ a b, Event.rename a b ∉ (buildScriptMain envLinux worldSubprocFails).events)) :=
  ⟨rfl, subprocess_failure_fatal envLinux worldSubprocFails "x86_64-linux-gnu" "baseline" 1
    rfl rfl rfl (by decide) rfl rfl (by decide)⟩

/-- Claim C9: whenever the build subprocess is invoked, the spawned command is
exactly `buildCmd`: working directory `zig-bootstrap`, exactly the two mapped
positional arguments in order, standard input null, and both standard output
and standard error redirected to this process's standard error stream (in
particular neither goes to its standard output); moreover every spawn event in
the trace carries that same command. -/
theorem subprocess_invocation_config (env : Env) (w : World) (zt zm : String)
    (hdo : env.doIt = true) (hdocs : env.docsRs = false)
    (hex : w.existsCheckOk = true) (hc : w.fs.contains "zig-bootstrap" = true)
    (hmap : zig_target_mcpu_for_build_target env.target = some (zt, zm)) :
    Event.spawnWait (buildCmd env zt zm) ∈ (buildScriptMain env w).events ∧
    (∀ c, Event.spawnWait c ∈ (buildScriptMain env w).events → c = buildCmd env zt zm) ∧
    (buildCmd env zt zm).cwd = some "zig-bootstrap" ∧
    (buildCmd env zt zm).args = [zt, zm] ∧
    (buildCmd env zt zm).stdin = .null ∧
    (buildCmd env zt zm).stdout = .parentStderr ∧
    (buildCmd env zt zm).stderr = .parentStderr ∧
    (buildCmd env zt zm).stdout ≠ .parentStdout ∧
    (buildCmd env zt zm).stderr ≠ .parentStdout := by
  have hacq := acquire_skip env w hdocs hex hc
  refine ⟨?_, ?_, rfl, rfl, rfl, rfl, rfl, by simp [buildCmd], by simp [buildCmd]⟩
  · simp [buildScriptMain, hdo, hdocs, hacq, hmap]
    (repeat' split) <;> simp
  · intro c hcmem
    revert hcmem
    simp [buildScriptMain, hdo, hdocs, hacq, hmap]
    (repeat' split) <;> simp

/-- Witness for C9 on the concrete Linux configuration. -/
theorem subprocess_invocation_config_witness :
    Event.spawnWait (buildCmd envLinux "x86_64-linux-gnu" "baseline") ∈
      (buildScriptMain envLinux worldAllOk).events ∧
    (∀ c, Event.spawnWait c ∈ (buildScriptMain envLinux worldAllOk).events →
      c = buildCmd envLinux "x86_64-linux-gnu" "baseline") ∧
    (buildCmd envLinux "x86_64-linux-gnu" "baseline").cwd = some "zig-bootstrap" ∧
    (buildCmd envLinux "x86_64-linux-gnu" "baseline").args = ["x86_64-linux-gnu", "baseline"] ∧
    (buildCmd envLinux "x86_64-linux-gnu" "baseline").stdin = .null ∧
    (buildCmd envLinux "x86_64-linux-gnu" "baseline").stdout = .parentStderr ∧
    (buildCmd envLinux "x86_64-linux-gnu" "baseline").stderr = .parentStderr ∧
    (buildCmd envLinux "x86_64-linux-gnu" "baseline").stdout ≠ .parentStdout ∧
    (buildCmd envLinux "x86_64-linux-gnu" "baseline").stderr ≠ .parentStdout :=
  subprocess_invocation_config envLinux worldAllOk "x86_64-linux-gnu" "baseline"
    rfl rfl rfl (by decide) rfl

/-- Claim C8: with the subprocess succeeding, when both renames succeed the
run succeeds and its relocation events are exactly the two renames — the
binary (named per the target-Windows flag) and the `lib` directory, both from
`zig-bootstrap/out/zig-<target>-<mcpu>/` into the output directory under the
same names; when the first rename fails the run fails and the `lib` rename is
never attempted; when the second fails the run fails. -/
theorem artifacts_relocated (env : Env) (w : World) (zt zm : String)
    (hdo : env.doIt = true) (hdocs : env.docsRs = false)
    (hex : w.existsCheckOk = true) (hc : w.fs.contains "zig-bootstrap" = true)
    (hmap : zig_target_mcpu_for_build_target env.target = some (zt, zm))
    (hw : w.waitResult = some 0) :
    (w.renameBinOk = true → w.renameLibOk = true →
      (buildScriptMain env w).result = .ok () ∧
      (buildScriptMain env w).events.filter isRenameEvent =
        [Event.rename
            (pathJoin (pathJoin (pathJoin "zig-bootstrap" "out") ("zig-" ++ zt ++ "-" ++ zm))
              (binaryName env.cargoCfgWindows))
            (pathJoin env.outDir (binaryName env.cargoCfgWindows)),
          Event.rename
            (pathJoin (pathJoin (pathJoin "zig-bootstrap" "out") ("zig-" ++ zt ++ "-" ++ zm))
              "lib")
            (pathJoin env.outDir "lib")]) ∧
    (w.renameBinOk = false →
      (∃ e, (buildScriptMain env w).result = .error e) ∧
      ∀ s, Event.rename s (pathJoin env.outDir "lib") ∉ (buildScriptMain env w).events) ∧
    (w.renameBinOk = true → w.renameLibOk = false →
      ∃ e, (buildScriptMain env w).result = .error e) := by
  have hacq := acquire_skip env w hdocs hex hc
  refine ⟨?_, ?_, ?_⟩
  · intro hb hl
    have hrun : buildScriptMain env w =
        ⟨.ok (),
          [Event.rerunIfEnvChanged "DO_IT", Event.spawnWait (buildCmd env zt zm),
            Event.rename
              (pathJoin (pathJoin (pathJoin "zig-bootstrap" "out") ("zig-" ++ zt ++ "-" ++ zm))
                (binaryName env.cargoCfgWindows))
              (pathJoin env.outDir (binaryName env.cargoCfgWindows)),
            Event.rename
              (pathJoin (pathJoin (pathJoin "zig-bootstrap" "out") ("zig-" ++ zt ++ "-" ++ zm))
                "lib")
              (pathJoin env.outDir "lib")], w.fs⟩ := by
      simp [buildScriptMain, hdo, hdocs, hacq, hmap, hw, hb, hl]
    rw [hrun]
    exact ⟨rfl, rfl⟩
  · intro hb
    have hrun : buildScriptMain env w =
        ⟨.error "io error: rename binary",
          [Event.rerunIfEnvChanged "DO_IT", Event.spawnWait (buildCmd env zt zm),
            Event.rename
              (pathJoin (pathJoin (pathJoin "zig-bootstrap" "out") ("zig-" ++ zt ++ "-" ++ zm))
                (binaryName env.cargoCfgWindows))
              (pathJoin env.outDir (binaryName env.cargoCfgWindows))], w.fs⟩ := by
      simp [buildScriptMain, hdo, hdocs, hacq, hmap, hw, hb]
    rw [hrun]
    refine ⟨⟨"io error: rename binary", rfl⟩, ?_⟩
    intro s
    have hlib : ("lib" : String) ≠ binaryName env.cargoCfgWindows := by
      cases env.cargoCfgWindows <;> simp [binaryName]
    simp only [List.mem_cons, List.not_mem_nil, or_false]
    rintro (h | h | h)
    · simp at h
    · simp at h
    · rw [Event.rename.injEq] at h
      exact hlib (string_append_left_cancel h.2)
  · intro hb hl
    have hrun : (buildScriptMain env w).result = .error "io error: rename lib" := by
      simp [buildScriptMain, hdo, hdocs, hacq, hmap, hw, hb, hl]
    exact ⟨"io error: rename lib", hrun⟩

/-- Witness for C8 on the concrete Linux configuration with every rename
succeeding. -/
theorem artifacts_relocated_witness :
    worldAllOk.renameBinOk = true ∧ worldAllOk.renameLibOk = true ∧
    ((buildScriptMain envLinux worldAllOk).result = .ok () ∧
      (buildScriptMain envLinux worldAllOk).events.filter isRenameEvent =
        [Event.rename
            (pathJoin (pathJoin (pathJoin "zig-bootstrap" "out") "zig-x86_64-linux-gnu-baseline")
              (binaryName envLinux.cargoCfgWindows))
            (pathJoin envLinux.outDir (binaryName envLinux.cargoCfgWindows)),
          Event.rename
            (pathJoin (pathJoin (pathJoin "zig-bootstrap" "out") "zig-x86_64-linux-gnu-baseline")
              "lib")
            (pathJoin envLinux.outDir "lib")]) :=
  ⟨rfl, rfl,
    (artifacts_relocated envLinux worldAllOk "x86_64-linux-gnu" "baseline"
      rfl rfl rfl (by decide) rfl rfl).1 rfl rfl⟩

/-- Cross-compilation environment: non-Windows host building for a Windows
target. -/
def envCrossA : Env :=
  { doIt := true, docsRs := false, target := "x86_64-pc-windows-gnu"
    hostWindows := false, cargoCfgWindows := true, outDir := "target/out"
    major := 0, minor := 14, patch := 1 }

/-- Cross-compilation environment: Windows host building for a Linux target. -/
def envCrossB : Env :=
  { doIt := true, docsRs := false, target := "x86_64-unknown-linux-gnu"
    hostWindows := true, cargoCfgWindows := false, outDir := "target/out"
    major := 0, minor := 14, patch := 1 }

/-- Claim C10: the entrypoint script name depends only on the compile-time
host-Windows condition while the artifact binary name depends only on the
separate target-Windows flag; with a non-Windows host and a Windows target the
run invokes `./build` yet expects and relocates `zig.exe`, and with a Windows
host and a non-Windows target it invokes `./build.bat` yet relocates `zig`. -/
theorem script_and_binary_name_independent :
    scriptName false = "./build" ∧ scriptName true = "./build.bat" ∧
    binaryName false = "zig" ∧ binaryName true = "zig.exe" ∧
    (buildCmd envCrossA "x86_64-windows-gnu" "baseline").program = "./build" ∧
    Event.spawnWait (buildCmd envCrossA "x86_64-windows-gnu" "baseline") ∈
      (buildScriptMain envCrossA worldAllOk).events ∧
    Event.rename
        (pathJoin (pathJoin (pathJoin "zig-bootstrap" "out") "zig-x86_64-windows-gnu-baseline")
          "zig.exe")
        (pathJoin envCrossA.outDir "zig.exe") ∈
      (buildScriptMain envCrossA worldAllOk).events ∧
    (buildCmd envCrossB "x86_64-linux-gnu" "baseline").program = "./build.bat" ∧
    Event.spawnWait (buildCmd envCrossB "x86_64-linux-gnu" "baseline") ∈
      (buildScriptMain envCrossB worldAllOk).events ∧
    Event.rename
        (pathJoin (pathJoin (pathJoin "zig-bootstrap" "out") "zig-x86_64-linux-gnu-baseline")
          "zig")
        (pathJoin envCrossB.outDir "zig") ∈
      (buildScriptMain envCrossB worldAllOk).events := by
  refine ⟨rfl, rfl, rfl, rfl, rfl, ?_, ?_, rfl, ?_, ?_⟩ <;> decide

end ZigRs
